import Mathlib

/-!
Shallow embedding of the FretMaster pitch engine
(src/utils/pitch_logic.py, src/utils/generate_assets.py, src/config.py).

Python strings are Lean String values; Python ints are Lean Int; Python
exceptions are the error side of Except, with one error constructor per
distinct failure site of the source.
-/

/-- Error taxonomy of the embedded code. badOctave is the
"Invalid note syntax" ValueError raised when the last character of the
input does not parse as an integer; badNoteName is the "Invalid note name"
ValueError; outOfRange is the "MIDI number outside valid range (0-127)"
ValueError; badStringIndex is the "String number outside 0 - 5 range"
ValueError; keyError models a failed dict lookup; emptyNote models the
uncaught IndexError from note[-1] on an empty string. -/
inductive PitchError where
  | badOctave
  | badNoteName
  | outOfRange
  | badStringIndex
  | keyError
  | emptyNote
deriving DecidableEq, Repr

deriving instance DecidableEq for Except

/-- Musical notation preference from src/config.py: PREFER_SHARPS = True. -/
def PREFER_SHARPS : Bool := true

/-- Map of note names to their position in the chromatic scale (0-11),
from src/utils/pitch_logic.py. A Python dict with string keys, embedded as
an association list in the source order of the dict literal. -/
def note_map : List (String × Int) :=
  [("C", 0), ("B#", 0),
   ("C#", 1), ("Db", 1),
   ("D", 2),
   ("D#", 3), ("Eb", 3),
   ("E", 4), ("Fb", 4),
   ("E#", 5), ("F", 5),
   ("F#", 6), ("Gb", 6),
   ("G", 7),
   ("G#", 8), ("Ab", 8),
   ("A", 9),
   ("A#", 10), ("Bb", 10),
   ("B", 11), ("Cb", 11)]

/-- note_to_midi from src/utils/pitch_logic.py. The source takes
octave = int(note[-1]) - only the final character - and
note_name = note[:-1]; a non-digit final character raises the
"Invalid note syntax" ValueError, a name absent from note_map raises the
"Invalid note name" ValueError, and the result is
(octave + 1) * 12 + pitch_class with no range check. -/
def note_to_midi (note : String) : Except PitchError Int :=
  match note.data.getLast? with
  | none => Except.error PitchError.emptyNote
  | some c =>
    if c.isDigit then
      let octave : Int := ((c.toNat - Char.toNat '0' : Nat) : Int)
      let note_name : String := String.mk note.data.dropLast
      match note_map.lookup note_name with
      | none => Except.error PitchError.badNoteName
      | some pitch_class => Except.ok ((octave + 1) * 12 + pitch_class)
    else Except.error PitchError.badOctave

/-- Note names for each pitch class when sharps are preferred,
from src/utils/pitch_logic.py (midi_to_note). -/
def note_names_sharp : List String :=
  ["C", "C#", "D", "D#", "E", "F"] ++ ["F#", "G", "G#", "A", "A#", "B"]

/-- Note names for each pitch class when flats are preferred,
from src/utils/pitch_logic.py (midi_to_note). -/
def note_names_flat : List String :=
  ["C", "Db", "D", "Eb", "E", "F", "Gb", "G", "Ab", "A", "Bb", "B"]

/-- midi_to_note from src/utils/pitch_logic.py: rejects inputs outside
[0, 127], then formats note_names[midi % 12] followed by the decimal
rendering of midi // 12 - 1. Lean division and modulus on Int agree with
Python floor division and modulus here because the divisor 12 is positive
and the guarded midi_number is nonnegative. -/
def midi_to_note (midi_number : Int) (prefer_sharps : Bool) :
    Except PitchError String :=
  if 0 ≤ midi_number ∧ midi_number ≤ 127 then
    let note_names := if prefer_sharps then note_names_sharp else note_names_flat
    let octave : Int := midi_number / 12 - 1
    let pitch_class : Nat := (midi_number % 12).toNat
    let note_name : String := note_names.getD pitch_class ""
    Except.ok (note_name ++ toString octave)
  else Except.error PitchError.outOfRange

/-- guitar_string_map from src/utils/pitch_logic.py: a dict from string
number to the open-string MIDI pitch, populated by note_to_midi calls at
module load (standard tuning E2, A2, D3, G3, B3, E4). Embedded as an
association list whose values keep the Except wrapper of the embedded
note_to_midi; every value is in fact Except.ok. -/
def guitar_string_map : List (Int × Except PitchError Int) :=
  [(0, note_to_midi "E2"),
   (1, note_to_midi "A2"),
   (2, note_to_midi "D3"),
   (3, note_to_midi "G3"),
   (4, note_to_midi "B3"),
   (5, note_to_midi "E4")]

/-- midi_to_string_fret from src/utils/pitch_logic.py: rejects string
numbers outside [0, 5] with the "String number outside 0 - 5 range"
ValueError, then returns (string_num, target_midi_number - open_string_midi)
where open_string_midi = guitar_string_map[string_num]. The keyError and
inner error branches are unreachable after the range check. -/
def midi_to_string_fret (string_num : Int) (target_midi_number : Int) :
    Except PitchError (Int × Int) :=
  if 0 ≤ string_num ∧ string_num ≤ 5 then
    match guitar_string_map.lookup string_num with
    | some (Except.ok open_string_midi) =>
        Except.ok (string_num, target_midi_number - open_string_midi)
    | some (Except.error e) => Except.error e
    | none => Except.error PitchError.keyError
  else Except.error PitchError.badStringIndex

/-- note_to_guitar_positions from src/utils/pitch_logic.py: parses the
target note, then for string_number in range(len(guitar_string_map))
appends midi_to_string_fret(string_number, midi) to the positions list.
The Python for-loop with append is embedded as a left fold that threads
the exception through Except. -/
def note_to_guitar_positions (target_note : String) :
    Except PitchError (List (Int × Int)) :=
  Except.bind (note_to_midi target_note) (fun midi_note_number =>
    (List.range guitar_string_map.length).foldl
      (fun acc string_number =>
        Except.bind acc (fun positions =>
          Except.map (fun string_fret => positions ++ [string_fret])
            (midi_to_string_fret (Int.ofNat string_number) midi_note_number)))
      (Except.ok []))

/-- Modelled from the spec: the fretboardgtr FretBoard drawing surface is
an external dependency, not part of src/. Per the spec (section 4.4 and
design note 3) the surface is the capability "place a labeled marker at
(string, fret)"; it is embedded as the list of placed markers
(string number, fret, label). -/
structure FretBoard where
  markers : List (Int × Int × String)
deriving DecidableEq, Repr

/-- Modelled from the spec: placing one labeled marker on the drawing
surface. create_diagram invokes it as fb.add_note with the 1-based string
number and the marker label; the fret coordinate is the loop's fret offset
for that string, per the spec wording "places a labeled marker on the
drawing surface at (stringIndex + 1, fretOffset)". -/
def FretBoard.add_note (fb : FretBoard) (string_no : Int) (fret : Int)
    (note : String) : FretBoard :=
  FretBoard.mk (fb.markers ++ [(string_no, fret, note)])

/-- DIAGRAM_PATH from src/config.py, PROJECT_ROOT / "static" / "diagrams",
embedded as a path string relative to the project root. -/
def DIAGRAM_PATH : String := "static/diagrams"

/-- Result record of a successful create_diagram call: the final drawing
surface, whether the output directory was ensured to exist, the file key
written, and the returned path. A failing call performs none of these
effects, which the embedding renders by producing Except.error with no
DiagramResult at all. -/
structure DiagramResult where
  board : FretBoard
  directory_created : Bool
  saved_file : Option String
  returned_path : String
deriving DecidableEq, Repr

/-- The marker-placing loop of create_diagram
(src/utils/generate_assets.py): for each (string_num, fret) position, if
lower_bound <= fret <= upper_bound then fb.add_note with string_num + 1
and the label, else skip. -/
def place_markers (lower_bound upper_bound : Int) (label : String)
    (fb : FretBoard) (positions : List (Int × Int)) : FretBoard :=
  positions.foldl
    (fun fb p =>
      if lower_bound ≤ p.2 ∧ p.2 ≤ upper_bound then
        FretBoard.add_note fb (p.1 + 1) p.2 label
      else fb)
    fb

/-- Default fret_range argument of create_diagram: (0, 12). -/
def default_fret_range : Int × Int := (0, 12)

/-- create_diagram from src/utils/generate_assets.py. note_name_only is
target_note[:-1]; positions come from note_to_guitar_positions (whose
failure propagates before any directory or file effect, matching the
source order: the loop runs before DIAGRAM_PATH.mkdir and fb.export);
markers are placed for in-range frets only; the artifact is saved under
DIAGRAM_PATH / (target_note ++ ".svg") and that path is returned. -/
def create_diagram (target_note : String) (fret_range : Int × Int) :
    Except PitchError DiagramResult :=
  let note_name_only : String := String.mk target_note.data.dropLast
  let lower_bound : Int := fret_range.1
  let upper_bound : Int := fret_range.2
  Except.bind (note_to_guitar_positions target_note) (fun positions =>
    let fb : FretBoard :=
      place_markers lower_bound upper_bound note_name_only (FretBoard.mk []) positions
    let save_name : String := DIAGRAM_PATH ++ "/" ++ target_note ++ ".svg"
    Except.ok (DiagramResult.mk fb true (some save_name) save_name))

/-- All ordered pairs of distinct note-name spellings that note_map sends
to the same pitch class: the enharmonic alias pairs of the table. -/
def alias_pairs : List (String × String) :=
  ((note_map.map Prod.fst).product (note_map.map Prod.fst)).filter
    (fun pr =>
      decide (pr.1 ≠ pr.2) && decide (note_map.lookup pr.1 = note_map.lookup pr.2))

/-! Helper lemmas shared by the claim theorems. -/

/-- Parsing a name followed by one digit character: note_to_midi takes the
final character as the octave and looks the remaining prefix up in
note_map. -/
theorem note_to_midi_concat (cs : List Char) (d : Char) (hd : d.isDigit = true) :
    note_to_midi (String.mk (cs ++ [d])) =
      match note_map.lookup (String.mk cs) with
      | some pc =>
          Except.ok ((((d.toNat - Char.toNat '0' : Nat) : Int) + 1) * 12 + pc)
      | none => Except.error PitchError.badNoteName := by
  unfold note_to_midi
  rw [show (String.mk (cs ++ [d])).data = cs ++ [d] from rfl,
    List.getLast?_concat, List.dropLast_concat]
  simp only [hd, if_true]
  cases note_map.lookup (String.mk cs) <;> rfl

/-- One step of the marker-placing loop. -/
theorem place_markers_cons (lo hi : Int) (label : String) (fb : FretBoard)
    (p : Int × Int) (ps : List (Int × Int)) :
    place_markers lo hi label fb (p :: ps) =
      place_markers lo hi label
        (if lo ≤ p.2 ∧ p.2 ≤ hi then FretBoard.add_note fb (p.1 + 1) p.2 label
         else fb) ps := rfl

/-- The marker-placing loop appends exactly the in-window positions, in
order, mapped to 1-based string numbers with the given label. -/
theorem place_markers_markers (lo hi : Int) (label : String)
    (positions : List (Int × Int)) :
    ∀ fb : FretBoard,
      (place_markers lo hi label fb positions).markers =
        fb.markers ++
          (positions.filter (fun p => decide (lo ≤ p.2 ∧ p.2 ≤ hi))).map
            (fun p => (p.1 + 1, p.2, label)) := by
  induction positions with
  | nil => intro fb; simp [place_markers]
  | cons p ps ih =>
    intro fb
    rw [place_markers_cons]
    by_cases hp : lo ≤ p.2 ∧ p.2 ≤ hi
    · rw [if_pos hp, ih, List.filter_cons]
      simp [hp, FretBoard.add_note]
    · rw [if_neg hp, ih, List.filter_cons]
      simp [hp]

/-- Characterization of a successful create_diagram call in terms of the
resolved positions. -/
theorem create_diagram_ok (target : String) (lo hi : Int) (r : DiagramResult)
    (h : create_diagram target (lo, hi) = Except.ok r) :
    ∃ ps, note_to_guitar_positions target = Except.ok ps ∧
      r = DiagramResult.mk
            (place_markers lo hi (String.mk target.data.dropLast)
              (FretBoard.mk []) ps)
            true
            (some (DIAGRAM_PATH ++ "/" ++ target ++ ".svg"))
            (DIAGRAM_PATH ++ "/" ++ target ++ ".svg") := by
  unfold create_diagram at h
  cases hps : note_to_guitar_positions target with
  | error e => rw [hps] at h; exact absurd h (by simp [Except.bind])
  | ok ps =>
    rw [hps] at h
    simp only [Except.bind] at h
    exact ⟨ps, rfl, (Except.ok.injEq _ _).mp h.symm⟩

/-! Claim theorems. -/

/-- C1 counterexample: the round-trip law fails at pitch 0. Formatting 0
yields "C-1" (octave 0 // 12 - 1 = -1), and parsing "C-1" takes only the
final character "1" as the octave, leaving the name "C-", which is not in
the alias table; the composition errors instead of returning 0. -/
theorem C1_roundtrip_cex :
    midi_to_note 0 true = Except.ok "C-1" ∧
    Except.bind (midi_to_note 0 true) note_to_midi =
      Except.error PitchError.badNoteName ∧
    Except.bind (midi_to_note 0 true) note_to_midi ≠ Except.ok 0 := by decide

/-- C1 amended: for every pitch p in [12, 127] and either sharp/flat
preference, parsing the formatted name gives back the same pitch:
note_to_midi (midi_to_note p pref) = ok p. -/
theorem C1_roundtrip (p : Nat) (h1 : 12 ≤ p) (h2 : p ≤ 127) (pref : Bool) :
    Except.bind (midi_to_note (Int.ofNat p) pref) note_to_midi =
      Except.ok (Int.ofNat p) := by
  have aux : ∀ q : Nat, q < 128 → 12 ≤ q → ∀ b : Bool,
      Except.bind (midi_to_note (Int.ofNat q) b) note_to_midi =
        Except.ok (Int.ofNat q) := by decide
  exact aux p (by omega) h1 pref

/-- C1 witness: the amended round trip at the concrete pitch 60. -/
theorem C1_roundtrip_witness :
    Except.bind (midi_to_note (Int.ofNat 60) true) note_to_midi =
      Except.ok (Int.ofNat 60) :=
  C1_roundtrip 60 (by decide) (by decide) true

/-- C2 counterexample: "C10" is a recognized name "C" followed by the
multi-digit octave "10", but note_to_midi does not return
(10 + 1) * 12 + 0 = 132; it takes only the final character "0" as the
octave and rejects the leftover name "C1". Likewise the signed octave
"C-1" is rejected as the unknown name "C-" rather than parsed. -/
theorem C2_octave_cex :
    note_to_midi "C10" = Except.error PitchError.badNoteName ∧
    note_to_midi "C10" ≠ Except.ok 132 ∧
    note_to_midi "C-1" = Except.error PitchError.badNoteName ∧
    note_to_midi "C-1" ≠ Except.ok 0 := by decide

/-- C2 amended: note_to_midi takes exactly the final character of the
input as the octave. When the final character is a digit d and the
remaining prefix is in the alias table with pitch class pc it returns
(d + 1) * 12 + pc, and it fails with the invalid-octave-syntax error
exactly when the input is nonempty and its final character is not a
digit. -/
theorem C2_last_char_octave :
    (∀ (name : List Char) (d : Char) (pc : Int), d.isDigit = true →
      note_map.lookup (String.mk name) = some pc →
      note_to_midi (String.mk (name ++ [d])) =
        Except.ok ((((d.toNat - Char.toNat '0' : Nat) : Int) + 1) * 12 + pc)) ∧
    (∀ s : String, note_to_midi s = Except.error PitchError.badOctave ↔
      ∃ c, s.data.getLast? = some c ∧ c.isDigit = false) := by
  constructor
  · intro name d pc hd hm
    rw [note_to_midi_concat name d hd, hm]
  · intro s
    unfold note_to_midi
    cases h : s.data.getLast? with
    | none => simp
    | some c =>
      by_cases hc : c.isDigit
      · cases hl : note_map.lookup (String.mk s.data.dropLast) <;>
          simp [hc, hl]
      · simp [hc, Bool.eq_false_iff.mpr hc]

/-- C2 witness: the amended parse at the concrete input "C" ++ "4". -/
theorem C2_last_char_octave_witness :
    note_to_midi (String.mk (['C'] ++ ['4'])) =
      Except.ok ((((Char.toNat '4' - Char.toNat '0' : Nat) : Int) + 1) * 12 + 0) :=
  C2_last_char_octave.1 ['C'] '4' 0 (by decide) (by decide)

/-- C3: for every target note that parses to pitch m,
note_to_guitar_positions returns Except.ok with exactly six entries, one
per string in ascending string-index order, entry i being
(i, m - openPitch i) for the standard open pitches 40, 45, 50, 55, 59,
64; no entry is omitted and no per-string error occurs whatever the sign
of the offsets. -/
theorem C3_positions_per_string (target : String) (m : Int)
    (h : note_to_midi target = Except.ok m) :
    note_to_guitar_positions target =
      Except.ok [(0, m - 40), (1, m - 45), (2, m - 50),
                 (3, m - 55), (4, m - 59), (5, m - 64)] := by
  unfold note_to_guitar_positions
  rw [h]
  rfl

/-- C3 witness: the six positions at the concrete target "C4". -/
theorem C3_positions_per_string_witness :
    note_to_guitar_positions "C4" =
      Except.ok [(0, 60 - 40), (1, 60 - 45), (2, 60 - 50),
                 (3, 60 - 55), (4, 60 - 59), (5, 60 - 64)] :=
  C3_positions_per_string "C4" 60 (by decide)

/-- C6: an unrecognized note name such as "H4" makes create_diagram fail
with the invalid-note-name error; the failure happens while resolving
positions, before the directory-creation and file-write effects, so no
DiagramResult (which carries those effects) is produced and no partial
output exists. -/
theorem C6_invalid_name_no_output :
    create_diagram "H4" default_fret_range =
      Except.error PitchError.badNoteName := by decide

/-- C9: under the standard tuning, whose open pitches are E2 = 40,
A2 = 45, D3 = 50, G3 = 55, B3 = 59, E4 = 64 (with note_to_midi "C4" = 60
fixing the pitch formula), resolving target "E4" yields fret offsets
24, 19, 14, 9, 5, 0 on strings 0 through 5. -/
theorem C9_standard_tuning_E4 :
    guitar_string_map =
      [(0, Except.ok 40), (1, Except.ok 45), (2, Except.ok 50),
       (3, Except.ok 55), (4, Except.ok 59), (5, Except.ok 64)] ∧
    note_to_midi "C4" = Except.ok 60 ∧
    note_to_guitar_positions "E4" =
      Except.ok [(0, 24), (1, 19), (2, 14), (3, 9), (4, 5), (5, 0)] := by decide

/-- C10: note_to_midi enforces no upper bound: the syntactically valid
input "B9", whose name is in the alias table, returns 131 > 127 with no
error. -/
theorem C10_no_upper_bound :
    note_to_midi "B9" = Except.ok 131 ∧ (127 : Int) < 131 := by decide

/-- C4: the fret-range filter of create_diagram keeps exactly the
positions with lower <= fretOffset <= upper (inclusive), so no rendered
marker ever carries a fret offset outside the window; and for target "C4"
the string-0 position has fret offset 20 and is excluded from the
rendered set under the default range (0, 12). -/
theorem C4_fret_window (target : String) (lo hi : Int) (r : DiagramResult)
    (h : create_diagram target (lo, hi) = Except.ok r) :
    (∀ x ∈ r.board.markers, lo ≤ x.2.1 ∧ x.2.1 ≤ hi) ∧
    (target = "C4" → lo = 0 → hi = 12 →
      note_to_guitar_positions "C4" =
        Except.ok [(0, 20), (1, 15), (2, 10), (3, 5), (4, 1), (5, -4)] ∧
      r.board.markers = [(3, 10, "C"), (4, 5, "C"), (5, 1, "C")]) := by
  obtain ⟨ps, hps, rfl⟩ := create_diagram_ok target lo hi r h
  constructor
  · intro x hx
    rw [place_markers_markers] at hx
    simp only [List.nil_append, List.mem_map, List.mem_filter] at hx
    obtain ⟨p, ⟨hmem, hcond⟩, rfl⟩ := hx
    exact of_decide_eq_true hcond
  · rintro rfl rfl rfl
    have hC4 : note_to_guitar_positions "C4" =
        Except.ok [(0, 20), (1, 15), (2, 10), (3, 5), (4, 1), (5, -4)] := by decide
    refine ⟨hC4, ?_⟩
    rw [hC4] at hps
    obtain rfl := (Except.ok.injEq _ _).mp hps
    decide

/-- C4 witness: the window property instantiated at target "C4" with the
default range and the marker (3, 10, "C") of the rendered set. -/
theorem C4_fret_window_witness :
    (0 : Int) ≤ (10 : Int) ∧ (10 : Int) ≤ (12 : Int) :=
  (C4_fret_window "C4" 0 12
      (DiagramResult.mk (FretBoard.mk [(3, 10, "C"), (4, 5, "C"), (5, 1, "C")])
        true (some "static/diagrams/C4.svg") "static/diagrams/C4.svg")
      (by decide)).1
    (3, 10, "C") (by decide)

/-- C5: for a well-formed target (alias-table name followed by a digit),
each position passing the fret-range filter contributes a marker at
(stringIndex + 1, fretOffset) whose label is the bare note name with no
octave suffix, in position order; the artifact is written under the key
target ++ ".svg" derived from the target note, and that path is
returned. -/
theorem C5_markers_and_artifact (name : List Char) (d : Char)
    (pc lo hi : Int) (r : DiagramResult) (hd : d.isDigit = true)
    (hm : note_map.lookup (String.mk name) = some pc)
    (hr : create_diagram (String.mk (name ++ [d])) (lo, hi) = Except.ok r) :
    (∃ ps, note_to_guitar_positions (String.mk (name ++ [d])) = Except.ok ps ∧
      r.board.markers =
        (ps.filter (fun p => decide (lo ≤ p.2 ∧ p.2 ≤ hi))).map
          (fun p => (p.1 + 1, p.2, String.mk name))) ∧
    r.saved_file =
      some (DIAGRAM_PATH ++ "/" ++ String.mk (name ++ [d]) ++ ".svg") ∧
    r.returned_path = DIAGRAM_PATH ++ "/" ++ String.mk (name ++ [d]) ++ ".svg" := by
  obtain ⟨ps, hps, rfl⟩ := create_diagram_ok _ lo hi r hr
  refine ⟨⟨ps, hps, ?_⟩, rfl, rfl⟩
  rw [place_markers_markers]
  simp only [List.nil_append,
    show (String.mk (name ++ [d])).data = name ++ [d] from rfl,
    List.dropLast_concat]

/-- C5 witness: the returned path for the concrete target "C" ++ "4". -/
theorem C5_markers_and_artifact_witness :
    DiagramResult.returned_path
        (DiagramResult.mk (FretBoard.mk [(3, 10, "C"), (4, 5, "C"), (5, 1, "C")])
          true (some "static/diagrams/C4.svg") "static/diagrams/C4.svg") =
      DIAGRAM_PATH ++ "/" ++ String.mk (['C'] ++ ['4']) ++ ".svg" :=
  (C5_markers_and_artifact ['C'] '4' 0 0 12
      (DiagramResult.mk (FretBoard.mk [(3, 10, "C"), (4, 5, "C"), (5, 1, "C")])
        true (some "static/diagrams/C4.svg") "static/diagrams/C4.svg")
      (by decide) (by decide) (by decide)).2.2

/-- C7: midi_to_note is total on [0, 127] - it returns a note string for
every such pitch and either preference - and fails with the out-of-range
error for every pitch outside [0, 127]. -/
theorem C7_format_total :
    (∀ (m : Int) (pref : Bool), 0 ≤ m → m ≤ 127 →
      ∃ s, midi_to_note m pref = Except.ok s) ∧
    (∀ (m : Int) (pref : Bool), m < 0 ∨ 127 < m →
      midi_to_note m pref = Except.error PitchError.outOfRange) := by
  constructor
  · intro m pref h1 h2
    exact ⟨_, by unfold midi_to_note; rw [if_pos ⟨h1, h2⟩]⟩
  · intro m pref h
    unfold midi_to_note
    rw [if_neg]
    rintro ⟨h1, h2⟩
    rcases h with h | h <;> omega

/-- C7 witness: the out-of-range branch at the concrete pitch 128. -/
theorem C7_format_total_witness :
    midi_to_note 128 true = Except.error PitchError.outOfRange :=
  C7_format_total.2 128 true (Or.inr (by decide))

/-- C8: for every enharmonic alias pair of the table and every octave
digit, the alias table maps both spellings to the same pitch class and
note_to_midi returns the identical pitch number for both spellings at
that octave. -/
theorem C8_enharmonic (a b : String) (d : Char)
    (hab : (a, b) ∈ alias_pairs) (hd : d.isDigit = true) :
    note_map.lookup a = note_map.lookup b ∧
    note_to_midi (String.mk (a.data ++ [d])) =
      note_to_midi (String.mk (b.data ++ [d])) := by
  have hcond := (List.mem_filter.mp hab).2
  simp only [Bool.and_eq_true, decide_eq_true_eq] at hcond
  obtain ⟨hne, heq⟩ := hcond
  refine ⟨heq, ?_⟩
  rw [note_to_midi_concat a.data d hd, note_to_midi_concat b.data d hd]
  rw [show String.mk a.data = a from rfl, show String.mk b.data = b from rfl, heq]

/-- C8 witness: the alias pair "C#" / "Db" at octave digit 4. -/
theorem C8_enharmonic_witness :
    note_map.lookup "C#" = note_map.lookup "Db" ∧
    note_to_midi (String.mk ("C#".data ++ ['4'])) =
      note_to_midi (String.mk ("Db".data ++ ['4'])) :=
  C8_enharmonic "C#" "Db" '4' (by decide) (by decide)

